import Mathlib

/-!
Verification of the tile addressing and storage/retrieval layer of the
openfree-isohypses repository: a shallow embedding of the coordinate
transforms (`flip_y`, `lat_lon_to_tile`, `get_tiles_for_bbox`), the
mbtiles extraction routine (`extract_mbtiles_standard`), the TileJSON
descriptor builder (`create_tilejson`) and the test HTTP tile server
(`serve_tile`, `do_GET`), together with theorems settling the
specification claims about them.

Python arbitrary-precision integers are modelled as `Int` (or `Nat`
where the code guarantees non-negativity), byte blobs as `List Nat`,
Python floats as real numbers, and fallible code as `Except`/`Option`.
-/

namespace Isohypses

/-- Models `flip_y` of `setup_contour_nginx.py`: converts a TMS
(origin-bottom) tile row to XYZ (origin-top) form, `(2 ** zoom - 1) - y`,
over Python arbitrary-precision integers. -/
def flip_y (zoom : Nat) (y : Int) : Int :=
  (2 ^ zoom - 1) - y

/-- One row of the `tiles` table of an mbtiles container:
`(zoom_level, tile_column, tile_row, tile_data)`, with `tile_row` in the
origin-bottom (TMS) convention and `tile_data` a byte blob. -/
structure TileRow where
  zoom_level : Nat
  tile_column : Int
  tile_row : Int
  tile_data : List Nat
deriving DecidableEq, Repr

/-- The source address `(zoom_level, tile_column, tile_row)` of a container
row, in the origin-bottom convention stored in the container. -/
def tileAddr (r : TileRow) : Nat × Int × Int :=
  (r.zoom_level, r.tile_column, r.tile_row)

/-- Row-origin flip applied to a whole address: the zoom and column are kept
and the row is converted from origin-bottom to origin-top. -/
def flipAddr (a : Nat × Int × Int) : Nat × Int × Int :=
  (a.1, a.2.1, flip_y a.1 a.2.2)

/-- The destination address of one extracted row: the loop body of
`extract_mbtiles_standard` computes `y = flip_y(z, row[2])` and writes to
`tiles_dir / str(z) / str(x) / (str(y) + suffix)`. -/
def destAddr (r : TileRow) : Nat × Int × Int :=
  flipAddr (tileAddr r)

/-- Models the write sequence performed by `extract_mbtiles_standard` of
`setup_contour_nginx.py`: for each container row in order, one write of the
blob `tile_data` to the flipped destination address.  (Directory creation,
the progress counter and the `metadata.json` dump do not affect which tile
files hold which bytes and are not modelled.) -/
def extract_mbtiles_standard (rows : List TileRow) : List ((Nat × Int × Int) × List Nat) :=
  rows.map (fun r => (destAddr r, r.tile_data))

/-- The relative path under the tiles directory at which an extracted tile
is stored: `str(z) + sep + str(x) + sep + str(y) + ".pbf"`. -/
def tile_path (z : Nat) (x y : Int) : String :=
  toString z ++ "/" ++ toString x ++ "/" ++ toString y ++ ".pbf"

/-- One filesystem write: the file at the given address now holds the given
bytes; every other file is unchanged. -/
def writeStep (fs : (Nat × Int × Int) → Option (List Nat))
    (w : (Nat × Int × Int) × List Nat) : (Nat × Int × Int) → Option (List Nat) :=
  fun a => if a = w.1 then some w.2 else fs a

/-- The filesystem contents after performing a list of writes in order,
starting from an empty tiles directory. -/
def applyWrites (ws : List ((Nat × Int × Int) × List Nat)) :
    (Nat × Int × Int) → Option (List Nat) :=
  ws.foldl writeStep (fun _ => none)

lemma foldl_writeStep_not_mem (ws : List ((Nat × Int × Int) × List Nat))
    (init : (Nat × Int × Int) → Option (List Nat)) (a : Nat × Int × Int)
    (h : a ∉ ws.map Prod.fst) : ws.foldl writeStep init a = init a := by
  induction ws generalizing init with
  | nil => rfl
  | cons w ws ih =>
    simp only [List.map_cons, List.mem_cons, not_or] at h
    rw [List.foldl_cons, ih _ h.2]
    simp [writeStep, h.1]

lemma foldl_writeStep_mem (ws : List ((Nat × Int × Int) × List Nat)) :
    ∀ (init : (Nat × Int × Int) → Option (List Nat)) (a : Nat × Int × Int)
    (d : List Nat), (ws.map Prod.fst).Nodup → (a, d) ∈ ws →
    ws.foldl writeStep init a = some d := by
  induction ws with
  | nil => intro init a d _ hm; cases hm
  | cons w ws ih =>
    intro init a d hnd hm
    rw [List.map_cons, List.nodup_cons] at hnd
    rw [List.foldl_cons]
    rcases List.mem_cons.mp hm with h | h
    · rw [foldl_writeStep_not_mem ws _ a (by rw [← h] at hnd; exact hnd.1)]
      simp [writeStep, ← h]
    · exact ih _ a d hnd.2 h

lemma flipAddr_injective : Function.Injective flipAddr := by
  rintro ⟨z1, x1, y1⟩ ⟨z2, x2, y2⟩ h
  simp only [flipAddr, flip_y, Prod.mk.injEq] at h
  obtain ⟨hz, hx, hy⟩ := h
  subst hz; subst hx
  simp only [Prod.mk.injEq, true_and]
  generalize (2 : Int) ^ z1 = t at hy
  omega

/-- C1: for every zoom `z ≥ 0` and row `r` with `0 ≤ r < 2^z`, the
row-origin flip `r ↦ 2^z - 1 - r` is self-inverse:
`flip_y z (flip_y z r) = r`. -/
theorem flip_y_self_inverse (z : Nat) (r : Int) (h0 : 0 ≤ r) (h1 : r < 2 ^ z) :
    flip_y z (flip_y z r) = r := by
  unfold flip_y
  ring

/-- Witness for C1 at `z = 3`, `r = 5`. -/
theorem flip_y_self_inverse_witness :
    (0 : Int) ≤ 5 ∧ (5 : Int) < 2 ^ 3 ∧ flip_y 3 (flip_y 3 5) = 5 :=
  ⟨by decide, by decide, flip_y_self_inverse 3 5 (by decide) (by decide)⟩

/-- C2: extraction writes, for each container row `(z, x, row_bottom, data)`,
exactly the bytes `data` to the address `(z, x, 2^z - 1 - row_bottom)`; the
write list has one write per row; when the rows have pairwise distinct
source addresses the destination addresses are also pairwise distinct (so
exactly `N` tile files result) and the final filesystem holds, at each
row's flipped address, exactly that row's blob; and the scenario row
`(zoom=5, column=10, tile_row=3)` lands at path `5/10/28.pbf`. -/
theorem extract_mbtiles_standard_correct (rows : List TileRow)
    (hdist : (rows.map tileAddr).Nodup) :
    (extract_mbtiles_standard rows).length = rows.length ∧
    ((extract_mbtiles_standard rows).map Prod.fst).Nodup ∧
    (∀ r ∈ rows,
      applyWrites (extract_mbtiles_standard rows)
        (r.zoom_level, r.tile_column, 2 ^ r.zoom_level - 1 - r.tile_row) =
        some r.tile_data) ∧
    tile_path 5 10 (flip_y 5 3) = "5/10/28.pbf" := by
  refine ⟨List.length_map _ _, ?_, ?_, by decide⟩
  · have hmap : (extract_mbtiles_standard rows).map Prod.fst =
        (rows.map tileAddr).map flipAddr := by
      simp [extract_mbtiles_standard, destAddr, List.map_map, Function.comp]
    rw [hmap]
    exact hdist.map flipAddr_injective
  · intro r hr
    have haddr : (r.zoom_level, r.tile_column, 2 ^ r.zoom_level - 1 - r.tile_row) =
        destAddr r := by
      simp [destAddr, flipAddr, tileAddr, flip_y]
    rw [haddr]
    apply foldl_writeStep_mem
    · have hmap : (extract_mbtiles_standard rows).map Prod.fst =
          (rows.map tileAddr).map flipAddr := by
        simp [extract_mbtiles_standard, destAddr, List.map_map, Function.comp]
      rw [hmap]
      exact hdist.map flipAddr_injective
    · exact List.mem_map.mpr ⟨r, hr, rfl⟩

/-- A concrete two-row container used to witness C2. -/
def c2rows : List TileRow :=
  [⟨5, 10, 3, [1, 2, 3]⟩, ⟨5, 10, 4, [7]⟩]

/-- Witness for C2 at a concrete two-row container with distinct source
addresses. -/
theorem extract_mbtiles_standard_correct_witness :
    (c2rows.map tileAddr).Nodup ∧
    ((extract_mbtiles_standard c2rows).length = c2rows.length ∧
    ((extract_mbtiles_standard c2rows).map Prod.fst).Nodup ∧
    (∀ r ∈ c2rows,
      applyWrites (extract_mbtiles_standard c2rows)
        (r.zoom_level, r.tile_column, 2 ^ r.zoom_level - 1 - r.tile_row) =
        some r.tile_data) ∧
    tile_path 5 10 (flip_y 5 3) = "5/10/28.pbf") :=
  ⟨by decide, extract_mbtiles_standard_correct c2rows (by decide)⟩

/-! ### The test HTTP tile server (`nginx_test_server.py`)

Python string operations are modelled structurally over `List Char` so
that concrete requests evaluate inside the kernel. -/

/-- Substring containment of one character list in another: true when the
needle occurs contiguously in the haystack. -/
def listContains (needle : List Char) : List Char → Bool
  | [] => needle.isEmpty
  | c :: cs => needle.isPrefixOf (c :: cs) || listContains needle cs

/-- Models the Python substring test `needle in s`. -/
def hasSubstr (needle s : String) : Bool :=
  listContains needle.toList s.toList

/-- Models Python `s.rstrip(sep)` for a single strip character: removes all
trailing occurrences of `sep`. -/
def rstripChar (sep : Char) (s : String) : String :=
  ((s.toList.reverse.dropWhile (fun c => c == sep)).reverse).asString

/-- Splitting a character list on a single separator character, keeping
empty segments, as Python `str.split(sep)` does. -/
def splitCharList (sep : Char) : List Char → List (List Char)
  | [] => [[]]
  | c :: cs =>
    if c == sep then [] :: splitCharList sep cs
    else
      match splitCharList sep cs with
      | [] => [[c]]
      | h :: t => (c :: h) :: t

/-- Models Python `s.split(sep)` for a single-character separator. -/
def pySplit (sep : Char) (s : String) : List String :=
  (splitCharList sep s.toList).map List.asString

/-- Models Python `s.endswith(post)`. -/
def pyEndsWith (post s : String) : Bool :=
  post.toList.isSuffixOf s.toList

/-- Models the Python slice `s[:-n]`: the string without its last `n`
characters. -/
def pyDropLast (n : Nat) (s : String) : String :=
  (s.toList.take (s.toList.length - n)).asString

/-- An HTTP response as assembled by the handler: status code, the response
headers in the order they are sent, and the body bytes. -/
structure HttpResponse where
  status : Nat
  headers : List (String × String)
  body : List Nat
deriving DecidableEq, Repr

/-- The value of the first response header with the given name, if any. -/
def header? (r : HttpResponse) (k : String) : Option String :=
  r.headers.lookup k

/-- Models `send_error(code, msg)`: an error-status response carrying the
stdlib-generated error page (modelled as the message bytes). -/
def errorResponse (code : Nat) (msg : String) : HttpResponse :=
  { status := code, headers := [], body := msg.toList.map Char.toNat }

/-- Models `serve_tile` of `nginx_test_server.py`: looks up
`tiles_dir/z/x/y.pbf` (the filesystem below `tiles_dir` is the function
`fs` from relative paths to file bytes); a hit is served with status 200,
gzip content-encoding and the stored bytes, a miss is served with status
200, no content-encoding and an empty body. -/
def serve_tile (fs : String → Option (List Nat)) (z x y : String) : HttpResponse :=
  match fs (z ++ "/" ++ x ++ "/" ++ y ++ ".pbf") with
  | some data =>
    { status := 200,
      headers := [("Content-Type", "application/vnd.mapbox-vector-tile"),
                  ("Content-Encoding", "gzip"),
                  ("Access-Control-Allow-Origin", "*"),
                  ("Cache-Control", "public, max-age=31536000"),
                  ("X-OFM-Debug", "tile " ++ z ++ "/" ++ x ++ "/" ++ y),
                  ("Content-Length", toString data.length)],
      body := data }
  | none =>
    { status := 200,
      headers := [("Content-Type", "application/vnd.mapbox-vector-tile"),
                  ("Access-Control-Allow-Origin", "*"),
                  ("Cache-Control", "public, max-age=31536000"),
                  ("X-OFM-Debug", "empty tile"),
                  ("Content-Length", "0")],
      body := [] }

/-- Models `serve_file` of `nginx_test_server.py`: a static file is served
with status 200 and the given content type, a missing file produces a 404
error response. -/
def serve_file (staticFs : String → Option (List Nat))
    (filename contentType : String) : HttpResponse :=
  match staticFs filename with
  | some data =>
    { status := 200,
      headers := [("Content-Type", contentType),
                  ("Access-Control-Allow-Origin", "*"),
                  ("Content-Length", toString data.length)],
      body := data }
  | none => errorResponse 404 (filename ++ " not found")

/-- Models `do_GET` of `nginx_test_server.py` on an already URL-parsed
request path.  Paths containing `/tiles/` or `/contours/` take the tile
branch: the Python `try` block reads `parts[-1]`, `parts[-2]`, `parts[-3]`
(an `IndexError` when fewer than three components exist is caught and falls
through to the 404) and, when the last component ends in `.pbf`, hands the
raw string components to `serve_tile`; no integer parsing happens anywhere.
The remaining routes serve the viewer, the TileJSON descriptor, or 404. -/
def do_GET (fs staticFs : String → Option (List Nat)) (path : String) : HttpResponse :=
  if hasSubstr "/tiles/" path || hasSubstr "/contours/" path then
    let parts := pySplit '/' (rstripChar '/' path)
    if 3 ≤ parts.length then
      let y_pbf := parts.getD (parts.length - 1) ""
      let x := parts.getD (parts.length - 2) ""
      let z := parts.getD (parts.length - 3) ""
      if pyEndsWith ".pbf" y_pbf then
        serve_tile fs z x (pyDropLast 4 y_pbf)
      else
        errorResponse 404 "Tile not found"
    else
      errorResponse 404 "Tile not found"
  else if path == "/" || path == "/index.html" || path == "/viewer.html" then
    serve_file staticFs "viewer.html" "text/html"
  else if path == "/tilejson.json" || path == "/contours" then
    serve_file staticFs "tilejson.json" "application/json"
  else
    errorResponse 404 "Not Found"

/-- C3: a tile request for an existing file is answered 200 with the stored
bytes, vector-tile content type, gzip content-encoding, long-lived public
cache-control and permissive CORS; a request for an absent file is answered
200 with an empty body, the same content type, cache-control and CORS
headers, and no content-encoding header — a miss is never a 404. -/
theorem serve_tile_contract (fs : String → Option (List Nat)) (z x y : String) :
    (∀ data, fs (z ++ "/" ++ x ++ "/" ++ y ++ ".pbf") = some data →
      (serve_tile fs z x y).status = 200 ∧
      (serve_tile fs z x y).body = data ∧
      header? (serve_tile fs z x y) "Content-Type" =
        some "application/vnd.mapbox-vector-tile" ∧
      header? (serve_tile fs z x y) "Content-Encoding" = some "gzip" ∧
      header? (serve_tile fs z x y) "Cache-Control" =
        some "public, max-age=31536000" ∧
      header? (serve_tile fs z x y) "Access-Control-Allow-Origin" = some "*") ∧
    (fs (z ++ "/" ++ x ++ "/" ++ y ++ ".pbf") = none →
      (serve_tile fs z x y).status = 200 ∧
      (serve_tile fs z x y).body = [] ∧
      header? (serve_tile fs z x y) "Content-Type" =
        some "application/vnd.mapbox-vector-tile" ∧
      header? (serve_tile fs z x y) "Content-Encoding" = none ∧
      header? (serve_tile fs z x y) "Cache-Control" =
        some "public, max-age=31536000" ∧
      header? (serve_tile fs z x y) "Access-Control-Allow-Origin" = some "*") := by
  constructor
  · intro data h
    simp [serve_tile, h, header?, List.lookup]
  · intro h
    simp [serve_tile, h, header?, List.lookup]

/-- A one-tile filesystem used to witness C3. -/
def c3fs : String → Option (List Nat) :=
  fun p => if p = "3/2/1.pbf" then some [10, 20] else none

/-- Witness for C3: a hit at `3/2/1.pbf` and a miss at `9/9/9.pbf`. -/
theorem serve_tile_contract_witness :
    ((serve_tile c3fs "3" "2" "1").status = 200 ∧
     (serve_tile c3fs "3" "2" "1").body = [10, 20] ∧
     header? (serve_tile c3fs "3" "2" "1") "Content-Type" =
       some "application/vnd.mapbox-vector-tile" ∧
     header? (serve_tile c3fs "3" "2" "1") "Content-Encoding" = some "gzip" ∧
     header? (serve_tile c3fs "3" "2" "1") "Cache-Control" =
       some "public, max-age=31536000" ∧
     header? (serve_tile c3fs "3" "2" "1") "Access-Control-Allow-Origin" =
       some "*") ∧
    ((serve_tile c3fs "9" "9" "9").status = 200 ∧
     (serve_tile c3fs "9" "9" "9").body = [] ∧
     header? (serve_tile c3fs "9" "9" "9") "Content-Type" =
       some "application/vnd.mapbox-vector-tile" ∧
     header? (serve_tile c3fs "9" "9" "9") "Content-Encoding" = none ∧
     header? (serve_tile c3fs "9" "9" "9") "Cache-Control" =
       some "public, max-age=31536000" ∧
     header? (serve_tile c3fs "9" "9" "9") "Access-Control-Allow-Origin" =
       some "*") :=
  ⟨(serve_tile_contract c3fs "3" "2" "1").1 [10, 20] (by decide),
   (serve_tile_contract c3fs "9" "9" "9").2 (by decide)⟩

/-- The empty tiles directory. -/
def emptyFs : String → Option (List Nat) := fun _ => none

/-- C4 counterexample: the request `/tiles/a/b/c.pbf` matches the tile
pattern with non-integer `z/x/y` components, yet the server answers it with
status 200 (the empty-tile response), not 404: `do_GET` never parses the
components as integers. -/
theorem do_GET_malformed_not_404 :
    (do_GET emptyFs emptyFs "/tiles/a/b/c.pbf").status = 200 ∧
    ¬ (do_GET emptyFs emptyFs "/tiles/a/b/c.pbf").status = 404 := by
  decide

lemma serve_tile_status (fs : String → Option (List Nat)) (z x y : String) :
    (serve_tile fs z x y).status = 200 := by
  unfold serve_tile
  cases fs (z ++ "/" ++ x ++ "/" ++ y ++ ".pbf") <;> rfl

/-- C4 amended: for every GET request whose path matches the tile-request
pattern (contains `/tiles/` or `/contours/`, has at least three
slash-separated components after stripping trailing slashes, and whose last
component ends in `.pbf`), the z/x/y components are never parsed as
integers: they are passed as raw strings to the tile lookup and the request
is answered with status 200 (the empty-tile response when no file matches);
the handler is a total function, so it never crashes. -/
theorem do_GET_tile_pattern_200 (fs staticFs : String → Option (List Nat))
    (path : String)
    (hpre : hasSubstr "/tiles/" path = true ∨ hasSubstr "/contours/" path = true)
    (hlen : 3 ≤ (pySplit '/' (rstripChar '/' path)).length)
    (hends : pyEndsWith ".pbf"
      ((pySplit '/' (rstripChar '/' path)).getD
        ((pySplit '/' (rstripChar '/' path)).length - 1) "") = true) :
    (do_GET fs staticFs path).status = 200 := by
  have hor : (hasSubstr "/tiles/" path || hasSubstr "/contours/" path) = true := by
    rcases hpre with h | h <;> simp [h]
  unfold do_GET
  rw [hor, if_pos rfl]
  dsimp only
  rw [if_pos hlen, if_pos hends]
  exact serve_tile_status _ _ _ _

/-- Witness for the amended C4 at the request `/tiles/a/b/c.pbf`. -/
theorem do_GET_tile_pattern_200_witness :
    (hasSubstr "/tiles/" "/tiles/a/b/c.pbf" = true ∨
     hasSubstr "/contours/" "/tiles/a/b/c.pbf" = true) ∧
    3 ≤ (pySplit '/' (rstripChar '/' "/tiles/a/b/c.pbf")).length ∧
    (do_GET emptyFs emptyFs "/tiles/a/b/c.pbf").status = 200 :=
  ⟨Or.inl (by decide), by decide,
   do_GET_tile_pattern_200 emptyFs emptyFs "/tiles/a/b/c.pbf"
     (Or.inl (by decide)) (by decide) (by decide)⟩

/-! ### The TileJSON descriptor builder (`create_tilejson` of
`setup_contour_nginx.py`) -/

/-- A parsed Python JSON value, as produced by the stdlib `json.loads`. -/
inductive PyJson where
  | null : PyJson
  | boolean : Bool → PyJson
  | num : ℚ → PyJson
  | str : String → PyJson
  | arr : List PyJson → PyJson
  | obj : List (String × PyJson) → PyJson

/-- Models Python `s.strip()`: the character list without leading and
trailing whitespace. -/
def stripList (cs : List Char) : List Char :=
  ((cs.dropWhile Char.isWhitespace).reverse.dropWhile Char.isWhitespace).reverse

/-- The natural number denoted by a list of decimal digit characters. -/
def digitsToNat (ds : List Char) : Nat :=
  ds.foldl (fun acc c => acc * 10 + (c.toNat - 48)) 0

/-- Models the stdlib `int(s)` on a string argument: optional surrounding
whitespace, an optional sign, then a non-empty run of decimal digits;
anything else raises `ValueError`. -/
def pyIntOfString (s : String) : Except String Int :=
  match stripList s.toList with
  | '-' :: ds =>
    if ds ≠ [] ∧ ds.all Char.isDigit then Except.ok (-(digitsToNat ds : Int))
    else Except.error "ValueError"
  | '+' :: ds =>
    if ds ≠ [] ∧ ds.all Char.isDigit then Except.ok (digitsToNat ds : Int)
    else Except.error "ValueError"
  | ds =>
    if ds ≠ [] ∧ ds.all Char.isDigit then Except.ok (digitsToNat ds : Int)
    else Except.error "ValueError"

/-- The rational denoted by an integer digit part and a fraction digit part,
with the given sign.  Python floats are modelled as exact rationals. -/
def decimalValue (neg : Bool) (ip fp : List Char) : ℚ :=
  let v : ℚ := (digitsToNat ip : ℚ) + (digitsToNat fp : ℚ) / (10 : ℚ) ^ fp.length
  if neg then -v else v

/-- The unsigned part of the stdlib `float(s)` grammar restricted to plain
decimal literals: digits with an optional fraction part, at least one digit
overall.  (Exponents, `inf` and `nan` never occur in the metadata the
builder reads and are not modelled.) -/
def pyFloatCore (cs : List Char) (neg : Bool) : Except String ℚ :=
  match splitCharList '.' cs with
  | [ip] =>
    if ip ≠ [] ∧ ip.all Char.isDigit then Except.ok (decimalValue neg ip [])
    else Except.error "ValueError"
  | [ip, fp] =>
    if ip ++ fp ≠ [] ∧ ip.all Char.isDigit ∧ fp.all Char.isDigit then
      Except.ok (decimalValue neg ip fp)
    else Except.error "ValueError"
  | _ => Except.error "ValueError"

/-- Models the stdlib `float(s)` on the decimal literals used by the tile
metadata: optional surrounding whitespace and sign, then digits with an
optional fraction part. -/
def pyFloatOfString (s : String) : Except String ℚ :=
  match stripList s.toList with
  | '-' :: r => pyFloatCore r true
  | '+' :: r => pyFloatCore r false
  | r => pyFloatCore r false

/-- The TileJSON document assembled by `create_tilejson`. -/
structure TileJson where
  tilejson : String
  name : String
  description : String
  version : String
  attribution : String
  scheme : String
  tiles : List String
  minzoom : Int
  maxzoom : Int
  bounds : List ℚ
  center : List ℚ
  vector_layers : PyJson

/-- The fixed tile URL template appended to the base URL; written out it is
the literal `/{z}/{x}/{y}.pbf` produced by the Python f-string. -/
def tileURLTemplate : String := "/\x7bz\x7d/\x7bx\x7d/\x7by\x7d.pbf"

/-- The nested-JSON step of `create_tilejson`: when a `json` metadata key is
present its value goes through `json.loads` (abstracted as `jloads`, with
`none` standing for `JSONDecodeError`, which the `try`/`except` swallows into
an empty layer list) and `vector_layers` is read off the resulting dict with
default `[]`; a successfully parsed non-dict value would raise an uncaught
`AttributeError`. -/
def parseVectorLayers (jloads : String → Option PyJson)
    (metadata : List (String × String)) : Except String PyJson :=
  match metadata.lookup "json" with
  | none => Except.ok (PyJson.arr [])
  | some s =>
    match jloads s with
    | none => Except.ok (PyJson.arr [])
    | some (PyJson.obj kvs) =>
      Except.ok ((kvs.lookup "vector_layers").getD (PyJson.arr []))
    | some _ => Except.error "AttributeError"

/-- Models `int(metadata.get(key, dflt))` for the zoom fields: an absent key
yields the integer default unchanged, a present value is parsed with the
stdlib `int`. -/
def parseZoomField (metadata : List (String × String)) (key : String)
    (dflt : Int) : Except String Int :=
  match metadata.lookup key with
  | none => Except.ok dflt
  | some s => pyIntOfString s

/-- Models `[float(x) for x in metadata.get(key, dfltStr).split(',')]`. -/
def parseFloatListField (metadata : List (String × String))
    (key dfltStr : String) : Except String (List ℚ) :=
  (pySplit ',' ((metadata.lookup key).getD dfltStr)).mapM pyFloatOfString

/-- The dict literal of `create_tilejson` after the vector-layer step: each
field is filled from the metadata map or its fixed default, the zoom fields
go through `int`, bounds and center through comma-splitting and `float`, and
`tiles` is always the one-element list `base_url + "/{z}/{x}/{y}.pbf"`. -/
def tilejsonRest (metadata : List (String × String)) (base_url : String)
    (vl : PyJson) : Except String TileJson :=
  match parseZoomField metadata "minzoom" 0 with
  | Except.error e => Except.error e
  | Except.ok minzoom =>
    match parseZoomField metadata "maxzoom" 14 with
    | Except.error e => Except.error e
    | Except.ok maxzoom =>
      match parseFloatListField metadata "bounds" "-180,-85,180,85" with
      | Except.error e => Except.error e
      | Except.ok bounds =>
        match parseFloatListField metadata "center" "0,0,2" with
        | Except.error e => Except.error e
        | Except.ok center =>
          Except.ok
            { tilejson := "3.0.0",
              name := (metadata.lookup "name").getD "Contour Tiles",
              description :=
                (metadata.lookup "description").getD "Elevation contour lines",
              version := (metadata.lookup "version").getD "1.0.0",
              attribution := (metadata.lookup "attribution").getD "",
              scheme := "xyz",
              tiles := [base_url ++ tileURLTemplate],
              minzoom := minzoom,
              maxzoom := maxzoom,
              bounds := bounds,
              center := center,
              vector_layers := vl }

/-- Models `create_tilejson` of `setup_contour_nginx.py`: the TileJSON
document it writes, or the uncaught Python exception name. -/
def create_tilejson (jloads : String → Option PyJson)
    (metadata : List (String × String)) (base_url : String) :
    Except String TileJson :=
  match parseVectorLayers jloads metadata with
  | Except.error e => Except.error e
  | Except.ok vl => tilejsonRest metadata base_url vl

lemma tilejsonRest_inv (md : List (String × String)) (base : String)
    (vl : PyJson) (d : TileJson) (h : tilejsonRest md base vl = Except.ok d) :
    ∃ mz mx bs cen, parseZoomField md "minzoom" 0 = Except.ok mz ∧
      parseZoomField md "maxzoom" 14 = Except.ok mx ∧
      parseFloatListField md "bounds" "-180,-85,180,85" = Except.ok bs ∧
      parseFloatListField md "center" "0,0,2" = Except.ok cen ∧
      d = { tilejson := "3.0.0",
            name := (md.lookup "name").getD "Contour Tiles",
            description := (md.lookup "description").getD "Elevation contour lines",
            version := (md.lookup "version").getD "1.0.0",
            attribution := (md.lookup "attribution").getD "",
            scheme := "xyz",
            tiles := [base ++ tileURLTemplate],
            minzoom := mz, maxzoom := mx, bounds := bs, center := cen,
            vector_layers := vl } := by
  unfold tilejsonRest at h
  split at h
  · exact Except.noConfusion h
  · rename_i mz hmz
    split at h
    · exact Except.noConfusion h
    · rename_i mx hmx
      split at h
      · exact Except.noConfusion h
      · rename_i bs hbs
        split at h
        · exact Except.noConfusion h
        · rename_i cen hcen
          cases h
          exact ⟨mz, mx, bs, cen, hmz, hmx, hbs, hcen, rfl⟩

lemma lookup_filter_json_self (md : List (String × String)) :
    (md.filter (fun kv => !(kv.1 == "json"))).lookup "json" = none := by
  induction md with
  | nil => rfl
  | cons kv md ih =>
    obtain ⟨k, v⟩ := kv
    rw [List.filter_cons]
    by_cases h : k = "json"
    · rw [if_neg (by simp [h])]
      exact ih
    · rw [if_pos (by simp [h]), List.lookup_cons]
      rw [show ("json" == k) = false from by simp [Ne.symm h]]
      exact ih

lemma lookup_filter_json_ne (md : List (String × String)) (k : String)
    (hk : k ≠ "json") :
    (md.filter (fun kv => !(kv.1 == "json"))).lookup k = md.lookup k := by
  induction md with
  | nil => rfl
  | cons kv md ih =>
    obtain ⟨k1, v⟩ := kv
    rw [List.filter_cons]
    by_cases h : k1 = "json"
    · rw [if_neg (by simp [h]), ih, List.lookup_cons]
      rw [show (k == k1) = false from by
        rw [beq_eq_false_iff_ne]
        exact fun he => hk (he.trans h)]
    · rw [if_pos (by simp [h]), List.lookup_cons, List.lookup_cons]
      cases hc : (k == k1) with
      | false => exact ih
      | true => rfl

/-- C7: when the metadata carries a `json` key whose value fails to parse as
JSON, the failure is swallowed: the builder produces exactly what it would
without any `json` key (all other fields still populated from the metadata
or the defaults, and no exception caused by the malformed value), and any
document it returns has an empty vector-layer list. -/
theorem create_tilejson_swallows_bad_json (jloads : String → Option PyJson)
    (metadata : List (String × String)) (base_url s : String)
    (hjson : metadata.lookup "json" = some s) (hfail : jloads s = none) :
    create_tilejson jloads metadata base_url =
      create_tilejson jloads (metadata.filter (fun kv => !(kv.1 == "json")))
        base_url ∧
    ∀ d, create_tilejson jloads metadata base_url = Except.ok d →
      d.vector_layers = PyJson.arr [] := by
  have hvl : parseVectorLayers jloads metadata = Except.ok (PyJson.arr []) := by
    unfold parseVectorLayers
    simp only [hjson, hfail]
  have hvl' : parseVectorLayers jloads
      (metadata.filter (fun kv => !(kv.1 == "json"))) =
      Except.ok (PyJson.arr []) := by
    unfold parseVectorLayers
    simp only [lookup_filter_json_self]
  constructor
  · unfold create_tilejson
    rw [hvl, hvl']
    unfold tilejsonRest parseZoomField parseFloatListField
    rw [lookup_filter_json_ne metadata "minzoom" (by decide),
        lookup_filter_json_ne metadata "maxzoom" (by decide),
        lookup_filter_json_ne metadata "bounds" (by decide),
        lookup_filter_json_ne metadata "center" (by decide),
        lookup_filter_json_ne metadata "name" (by decide),
        lookup_filter_json_ne metadata "description" (by decide),
        lookup_filter_json_ne metadata "version" (by decide),
        lookup_filter_json_ne metadata "attribution" (by decide)]
  · intro d hd
    unfold create_tilejson at hd
    rw [hvl] at hd
    obtain ⟨mz, mx, bs, cen, _, _, _, _, hrec⟩ := tilejsonRest_inv _ _ _ _ hd
    rw [hrec]

/-- The metadata map used to witness C7: a `json` key with an unparsable
value plus one ordinary key. -/
def c7md : List (String × String) := [("json", "x"), ("minzoom", "3")]

/-- A `json.loads` stand-in that fails on every input. -/
def noParse : String → Option PyJson := fun _ => none

/-- Witness for C7 at a concrete metadata map whose `json` value fails to
parse. -/
theorem create_tilejson_swallows_bad_json_witness :
    c7md.lookup "json" = some "x" ∧ noParse "x" = none ∧
    (create_tilejson noParse c7md "u" =
      create_tilejson noParse (c7md.filter (fun kv => !(kv.1 == "json"))) "u" ∧
     ∀ d, create_tilejson noParse c7md "u" = Except.ok d →
       d.vector_layers = PyJson.arr []) :=
  ⟨rfl, rfl, create_tilejson_swallows_bad_json noParse c7md "u" "x" rfl rfl⟩

lemma decimalValue_nofrac (neg : Bool) (ip : List Char) :
    decimalValue neg ip [] =
      if neg then -(digitsToNat ip : ℚ) else (digitsToNat ip : ℚ) := by
  unfold decimalValue
  cases neg <;> simp [digitsToNat]

lemma pyFloatOfString_neg180 : pyFloatOfString "-180" = Except.ok (-180) := by
  show Except.ok (decimalValue true ['1', '8', '0'] []) = _
  rw [decimalValue_nofrac, show digitsToNat ['1', '8', '0'] = 180 from by decide]
  norm_num

lemma pyFloatOfString_neg85 : pyFloatOfString "-85" = Except.ok (-85) := by
  show Except.ok (decimalValue true ['8', '5'] []) = _
  rw [decimalValue_nofrac, show digitsToNat ['8', '5'] = 85 from by decide]
  norm_num

lemma pyFloatOfString_180 : pyFloatOfString "180" = Except.ok 180 := by
  show Except.ok (decimalValue false ['1', '8', '0'] []) = _
  rw [decimalValue_nofrac, show digitsToNat ['1', '8', '0'] = 180 from by decide]
  norm_num

lemma pyFloatOfString_85 : pyFloatOfString "85" = Except.ok 85 := by
  show Except.ok (decimalValue false ['8', '5'] []) = _
  rw [decimalValue_nofrac, show digitsToNat ['8', '5'] = 85 from by decide]
  norm_num

lemma pyFloatOfString_0 : pyFloatOfString "0" = Except.ok 0 := by
  show Except.ok (decimalValue false ['0'] []) = _
  rw [decimalValue_nofrac, show digitsToNat ['0'] = 0 from by decide]
  norm_num

lemma pyFloatOfString_2 : pyFloatOfString "2" = Except.ok 2 := by
  show Except.ok (decimalValue false ['2'] []) = _
  rw [decimalValue_nofrac, show digitsToNat ['2'] = 2 from by decide]
  norm_num

lemma pyFloatOfString_neg1 : pyFloatOfString "-1" = Except.ok (-1) := by
  show Except.ok (decimalValue true ['1'] []) = _
  rw [decimalValue_nofrac, show digitsToNat ['1'] = 1 from by decide]
  norm_num

lemma pyFloatOfString_1 : pyFloatOfString "1" = Except.ok 1 := by
  show Except.ok (decimalValue false ['1'] []) = _
  rw [decimalValue_nofrac, show digitsToNat ['1'] = 1 from by decide]
  norm_num

lemma mapM_pyFloat_bounds_default :
    (pySplit ',' "-180,-85,180,85").mapM pyFloatOfString =
      Except.ok [-180, -85, 180, 85] := by
  show (["-180", "-85", "180", "85"].mapM pyFloatOfString) = _
  simp only [List.mapM_cons, List.mapM_nil, pyFloatOfString_neg180,
    pyFloatOfString_neg85, pyFloatOfString_180, pyFloatOfString_85]
  rfl

lemma mapM_pyFloat_center_default :
    (pySplit ',' "0,0,2").mapM pyFloatOfString = Except.ok [0, 0, 2] := by
  show (["0", "0", "2"].mapM pyFloatOfString) = _
  simp only [List.mapM_cons, List.mapM_nil, pyFloatOfString_0,
    pyFloatOfString_2]
  rfl

lemma mapM_pyFloat_scenario_bounds :
    (pySplit ',' "-1,-1,1,1").mapM pyFloatOfString =
      Except.ok [-1, -1, 1, 1] := by
  show (["-1", "-1", "1", "1"].mapM pyFloatOfString) = _
  simp only [List.mapM_cons, List.mapM_nil, pyFloatOfString_neg1,
    pyFloatOfString_1]
  rfl

lemma tilejsonRest_ok (md : List (String × String)) (base : String)
    (vl : PyJson) (mz mx : Int) (bs cen : List ℚ)
    (hmz : parseZoomField md "minzoom" 0 = Except.ok mz)
    (hmx : parseZoomField md "maxzoom" 14 = Except.ok mx)
    (hbs : parseFloatListField md "bounds" "-180,-85,180,85" = Except.ok bs)
    (hcen : parseFloatListField md "center" "0,0,2" = Except.ok cen) :
    tilejsonRest md base vl = Except.ok
      { tilejson := "3.0.0",
        name := (md.lookup "name").getD "Contour Tiles",
        description := (md.lookup "description").getD "Elevation contour lines",
        version := (md.lookup "version").getD "1.0.0",
        attribution := (md.lookup "attribution").getD "",
        scheme := "xyz", tiles := [base ++ tileURLTemplate],
        minzoom := mz, maxzoom := mx, bounds := bs, center := cen,
        vector_layers := vl } := by
  unfold tilejsonRest
  simp only [hmz, hmx, hbs, hcen]

/-- C8: the descriptor builder fills absent keys from the fixed default
table (name "Contour Tiles", description "Elevation contour lines", version
"1.0.0", empty attribution, minzoom 0, maxzoom 14, bounds
`[-180, -85, 180, 85]`, center `[0, 0, 2]`), always sets `tiles` to the
one-element list `base_url + "/{z}/{x}/{y}.pbf"`, parses supplied
minzoom/maxzoom strings as integers and bounds/center as comma-separated
float lists, and on the scenario map
`{minzoom: "2", maxzoom: "12", bounds: "-1,-1,1,1"}` with no `json` key
yields minzoom 2, maxzoom 12 and an empty vector-layer list. -/
theorem create_tilejson_fields (jloads : String → Option PyJson)
    (base_url : String) :
    create_tilejson jloads [] base_url = Except.ok
      { tilejson := "3.0.0", name := "Contour Tiles",
        description := "Elevation contour lines", version := "1.0.0",
        attribution := "", scheme := "xyz",
        tiles := [base_url ++ tileURLTemplate],
        minzoom := 0, maxzoom := 14,
        bounds := [-180, -85, 180, 85], center := [0, 0, 2],
        vector_layers := PyJson.arr [] } ∧
    (∀ metadata d, create_tilejson jloads metadata base_url = Except.ok d →
      d.tiles = [base_url ++ tileURLTemplate]) ∧
    (∀ metadata s k d, metadata.lookup "minzoom" = some s →
      pyIntOfString s = Except.ok k →
      create_tilejson jloads metadata base_url = Except.ok d →
      d.minzoom = k) ∧
    (∀ metadata s k d, metadata.lookup "maxzoom" = some s →
      pyIntOfString s = Except.ok k →
      create_tilejson jloads metadata base_url = Except.ok d →
      d.maxzoom = k) ∧
    (∀ metadata s qs d, metadata.lookup "bounds" = some s →
      (pySplit ',' s).mapM pyFloatOfString = Except.ok qs →
      create_tilejson jloads metadata base_url = Except.ok d →
      d.bounds = qs) ∧
    (∀ metadata s qs d, metadata.lookup "center" = some s →
      (pySplit ',' s).mapM pyFloatOfString = Except.ok qs →
      create_tilejson jloads metadata base_url = Except.ok d →
      d.center = qs) ∧
    create_tilejson jloads
      [("minzoom", "2"), ("maxzoom", "12"), ("bounds", "-1,-1,1,1")]
      base_url = Except.ok
      { tilejson := "3.0.0", name := "Contour Tiles",
        description := "Elevation contour lines", version := "1.0.0",
        attribution := "", scheme := "xyz",
        tiles := [base_url ++ tileURLTemplate],
        minzoom := 2, maxzoom := 12,
        bounds := [-1, -1, 1, 1], center := [0, 0, 2],
        vector_layers := PyJson.arr [] } := by
  refine ⟨?_, ?_, ?_, ?_, ?_, ?_, ?_⟩
  · exact tilejsonRest_ok [] base_url (PyJson.arr []) 0 14 _ _ rfl rfl
      mapM_pyFloat_bounds_default mapM_pyFloat_center_default
  · intro metadata d hd
    unfold create_tilejson at hd
    cases hvl : parseVectorLayers jloads metadata with
    | error e => rw [hvl] at hd; exact Except.noConfusion hd
    | ok vl =>
      rw [hvl] at hd
      obtain ⟨mz, mx, bs, cen, _, _, _, _, hrec⟩ := tilejsonRest_inv _ _ _ _ hd
      rw [hrec]
  · intro metadata s k d hs hk hd
    unfold create_tilejson at hd
    cases hvl : parseVectorLayers jloads metadata with
    | error e => rw [hvl] at hd; exact Except.noConfusion hd
    | ok vl =>
      rw [hvl] at hd
      obtain ⟨mz, mx, bs, cen, hmz, _, _, _, hrec⟩ := tilejsonRest_inv _ _ _ _ hd
      unfold parseZoomField at hmz
      simp only [hs] at hmz
      rw [hk] at hmz
      injection hmz with h
      subst h
      rw [hrec]
  · intro metadata s k d hs hk hd
    unfold create_tilejson at hd
    cases hvl : parseVectorLayers jloads metadata with
    | error e => rw [hvl] at hd; exact Except.noConfusion hd
    | ok vl =>
      rw [hvl] at hd
      obtain ⟨mz, mx, bs, cen, _, hmx, _, _, hrec⟩ := tilejsonRest_inv _ _ _ _ hd
      unfold parseZoomField at hmx
      simp only [hs] at hmx
      rw [hk] at hmx
      injection hmx with h
      subst h
      rw [hrec]
  · intro metadata s qs d hs hq hd
    unfold create_tilejson at hd
    cases hvl : parseVectorLayers jloads metadata with
    | error e => rw [hvl] at hd; exact Except.noConfusion hd
    | ok vl =>
      rw [hvl] at hd
      obtain ⟨mz, mx, bs, cen, _, _, hbs, _, hrec⟩ := tilejsonRest_inv _ _ _ _ hd
      unfold parseFloatListField at hbs
      simp only [hs, Option.getD_some] at hbs
      rw [hq] at hbs
      injection hbs with h
      subst h
      rw [hrec]
  · intro metadata s qs d hs hq hd
    unfold create_tilejson at hd
    cases hvl : parseVectorLayers jloads metadata with
    | error e => rw [hvl] at hd; exact Except.noConfusion hd
    | ok vl =>
      rw [hvl] at hd
      obtain ⟨mz, mx, bs, cen, _, _, _, hcen, hrec⟩ := tilejsonRest_inv _ _ _ _ hd
      unfold parseFloatListField at hcen
      simp only [hs, Option.getD_some] at hcen
      rw [hq] at hcen
      injection hcen with h
      subst h
      rw [hrec]
  · exact tilejsonRest_ok
      [("minzoom", "2"), ("maxzoom", "12"), ("bounds", "-1,-1,1,1")]
      base_url (PyJson.arr []) 2 12 _ _ rfl rfl
      mapM_pyFloat_scenario_bounds mapM_pyFloat_center_default

/-- The concrete descriptor built from the one-key map
`{minzoom: "2"}` with base URL `"u"`, used to witness C8. -/
def c8d : TileJson :=
  { tilejson := "3.0.0", name := "Contour Tiles",
    description := "Elevation contour lines", version := "1.0.0",
    attribution := "", scheme := "xyz",
    tiles := ["u" ++ tileURLTemplate],
    minzoom := 2, maxzoom := 14,
    bounds := [-180, -85, 180, 85], center := [0, 0, 2],
    vector_layers := PyJson.arr [] }

/-- Witness for C8: the supplied string `"2"` under `minzoom` parses to the
integer 2 in the built descriptor. -/
theorem create_tilejson_fields_witness :
    ([("minzoom", "2")] : List (String × String)).lookup "minzoom" =
      some "2" ∧
    pyIntOfString "2" = Except.ok 2 ∧
    create_tilejson noParse [("minzoom", "2")] "u" = Except.ok c8d ∧
    c8d.minzoom = 2 := by
  have hok : create_tilejson noParse [("minzoom", "2")] "u" = Except.ok c8d :=
    tilejsonRest_ok [("minzoom", "2")] "u" (PyJson.arr []) 2 14 _ _ rfl rfl
      mapM_pyFloat_bounds_default mapM_pyFloat_center_default
  exact ⟨rfl, rfl, hok,
    (create_tilejson_fields noParse "u").2.2.1 [("minzoom", "2")] "2" 2 c8d
      rfl rfl hok⟩

/-! ### Coordinate transforms (`contour_gen.py`)

Python floats are modelled as real numbers; `math.asinh` is `Real.arsinh`,
`math.tan` is `Real.tan`, `math.radians lat` is `lat * (π / 180)` and the
`int()` conversion truncates toward zero. -/

/-- Models the Python `int()` conversion on a float: truncation toward
zero. -/
noncomputable def pyInt (x : ℝ) : ℤ :=
  if 0 ≤ x then ⌊x⌋ else ⌈x⌉

/-- Models `lat_lon_to_tile` of `contour_gen.py` (textually identical in
`test_contour_standalone.py`): the Web-Mercator slippy-map projection of a
latitude/longitude pair to `(x, y)` tile indices at the given zoom. -/
noncomputable def lat_lon_to_tile (lat lon : ℝ) (zoom : ℕ) : ℤ × ℤ :=
  let n : ℝ := 2 ^ zoom
  let x := pyInt ((lon + 180) / 360 * n)
  let lat_rad := lat * (Real.pi / 180)
  let y := pyInt ((1 - Real.arsinh (Real.tan lat_rad) / Real.pi) / 2 * n)
  (x, y)

/-- The `geoToTile` formula exactly as the specification words it, with
`floor` in both components; to be compared with the implementation
`lat_lon_to_tile`. -/
noncomputable def geoToTile_spec (lat lon : ℝ) (zoom : ℕ) : ℤ × ℤ :=
  (⌊(lon + 180) / 360 * 2 ^ zoom⌋,
   ⌊(1 - Real.arsinh (Real.tan (lat * (Real.pi / 180))) / Real.pi) / 2 *
      2 ^ zoom⌋)

lemma pyInt_eq_floor {x : ℝ} (hx : 0 ≤ x) : pyInt x = ⌊x⌋ :=
  if_pos hx

lemma xarg_nonneg (lon : ℝ) (zoom : ℕ) (h : -180 ≤ lon) :
    0 ≤ (lon + 180) / 360 * (2 : ℝ) ^ zoom := by
  have h1 : (0 : ℝ) ≤ lon + 180 := by linarith
  positivity

lemma yarg_nonneg (t : ℝ) (zoom : ℕ) (h : t ≤ Real.pi) :
    0 ≤ (1 - t / Real.pi) / 2 * (2 : ℝ) ^ zoom := by
  have hpi := Real.pi_pos
  have h1 : t / Real.pi ≤ 1 := (div_le_one hpi).mpr h
  have h2 : (0 : ℝ) ≤ 1 - t / Real.pi := by linarith
  positivity

/-- C5: within the valid domain (longitude in `[-180, 180]` and latitude in
the Mercator-projectable range, expressed as the Mercator ordinate
`arsinh (tan lat_rad)` lying within `[-π, π]`), the implementation, whose
`int()` truncates toward zero, agrees with the specification formula, which
floors: both arguments are non-negative there. -/
theorem lat_lon_to_tile_eq_spec (lat lon : ℝ) (zoom : ℕ)
    (hlon1 : -180 ≤ lon) (hlon2 : lon ≤ 180)
    (hlat : |Real.arsinh (Real.tan (lat * (Real.pi / 180)))| ≤ Real.pi) :
    lat_lon_to_tile lat lon zoom = geoToTile_spec lat lon zoom := by
  unfold lat_lon_to_tile geoToTile_spec
  dsimp only
  have ht : Real.arsinh (Real.tan (lat * (Real.pi / 180))) ≤ Real.pi :=
    (abs_le.mp hlat).2
  rw [pyInt_eq_floor (xarg_nonneg lon zoom hlon1),
      pyInt_eq_floor (yarg_nonneg _ zoom ht)]

/-- Witness for C5 at `lat = 0`, `lon = 0`, `zoom = 1`. -/
theorem lat_lon_to_tile_eq_spec_witness :
    (-180 ≤ (0 : ℝ)) ∧ ((0 : ℝ) ≤ 180) ∧
    |Real.arsinh (Real.tan ((0 : ℝ) * (Real.pi / 180)))| ≤ Real.pi ∧
    lat_lon_to_tile 0 0 1 = geoToTile_spec 0 0 1 := by
  have habs : |Real.arsinh (Real.tan ((0 : ℝ) * (Real.pi / 180)))| ≤
      Real.pi := by
    rw [zero_mul, Real.tan_zero, Real.arsinh_zero, abs_zero]
    exact Real.pi_pos.le
  exact ⟨by norm_num, by norm_num, habs,
    lat_lon_to_tile_eq_spec 0 0 1 (by norm_num) (by norm_num) habs⟩

/-- C9: at every fixed zoom, on the valid domain the projection is
monotone: the column is non-decreasing as the longitude increases (at fixed
latitude), and the row is non-decreasing as the latitude decreases (at
fixed longitude). -/
theorem lat_lon_to_tile_monotone (zoom : ℕ) :
    (∀ lat lon1 lon2, -180 ≤ lon1 → lon1 ≤ lon2 → lon2 ≤ 180 →
      (lat_lon_to_tile lat lon1 zoom).1 ≤ (lat_lon_to_tile lat lon2 zoom).1) ∧
    (∀ lon lat1 lat2, -90 < lat2 → lat2 ≤ lat1 → lat1 < 90 →
      |Real.arsinh (Real.tan (lat1 * (Real.pi / 180)))| ≤ Real.pi →
      |Real.arsinh (Real.tan (lat2 * (Real.pi / 180)))| ≤ Real.pi →
      (lat_lon_to_tile lat1 lon zoom).2 ≤ (lat_lon_to_tile lat2 lon zoom).2) := by
  have hpi := Real.pi_pos
  have hn : (0 : ℝ) ≤ (2 : ℝ) ^ zoom := by positivity
  constructor
  · intro lat lon1 lon2 h1 h12 h2
    show pyInt _ ≤ pyInt _
    rw [pyInt_eq_floor (xarg_nonneg lon1 zoom h1),
        pyInt_eq_floor (xarg_nonneg lon2 zoom (by linarith))]
    apply Int.floor_le_floor
    gcongr
  · intro lon lat1 lat2 hlow h21 hhigh ht1 ht2
    show pyInt _ ≤ pyInt _
    have ht1' := (abs_le.mp ht1).2
    have ht2' := (abs_le.mp ht2).2
    rw [pyInt_eq_floor (yarg_nonneg _ zoom ht1'),
        pyInt_eq_floor (yarg_nonneg _ zoom ht2')]
    apply Int.floor_le_floor
    have hrad : (0 : ℝ) < Real.pi / 180 := by positivity
    have hr21 : lat2 * (Real.pi / 180) ≤ lat1 * (Real.pi / 180) :=
      mul_le_mul_of_nonneg_right h21 hrad.le
    have hrlow : -(Real.pi / 2) < lat2 * (Real.pi / 180) := by
      have := mul_lt_mul_of_pos_right hlow hrad
      calc -(Real.pi / 2) = -90 * (Real.pi / 180) := by ring
      _ < lat2 * (Real.pi / 180) := this
    have hrhigh : lat1 * (Real.pi / 180) < Real.pi / 2 := by
      have := mul_lt_mul_of_pos_right hhigh hrad
      calc lat1 * (Real.pi / 180) < 90 * (Real.pi / 180) := this
      _ = Real.pi / 2 := by ring
    have htan : Real.tan (lat2 * (Real.pi / 180)) ≤
        Real.tan (lat1 * (Real.pi / 180)) := by
      rcases eq_or_lt_of_le hr21 with he | hlt
      · rw [he]
      · exact (Real.tan_lt_tan_of_lt_of_lt_pi_div_two hrlow hrhigh hlt).le
    have hars : Real.arsinh (Real.tan (lat2 * (Real.pi / 180))) ≤
        Real.arsinh (Real.tan (lat1 * (Real.pi / 180))) :=
      Real.arsinh_le_arsinh.mpr htan
    gcongr

/-- Witness for C9: the column part at `lat = 0`, `lon1 = 0 ≤ lon2 = 90`,
and the row part at `lon = 0`, `lat2 = 0 ≤ lat1 = 45`, both at zoom 1. -/
theorem lat_lon_to_tile_monotone_witness :
    (-180 ≤ (0 : ℝ)) ∧ ((0 : ℝ) ≤ (90 : ℝ)) ∧ ((90 : ℝ) ≤ 180) ∧
    (lat_lon_to_tile 0 0 1).1 ≤ (lat_lon_to_tile 0 90 1).1 ∧
    (lat_lon_to_tile 45 0 1).2 ≤ (lat_lon_to_tile 0 0 1).2 := by
  have habs0 : |Real.arsinh (Real.tan ((0 : ℝ) * (Real.pi / 180)))| ≤
      Real.pi := by
    rw [zero_mul, Real.tan_zero, Real.arsinh_zero, abs_zero]
    exact Real.pi_pos.le
  have habs45 : |Real.arsinh (Real.tan ((45 : ℝ) * (Real.pi / 180)))| ≤
      Real.pi := by
    have h45 : (45 : ℝ) * (Real.pi / 180) = Real.pi / 4 := by ring
    rw [h45, Real.tan_pi_div_four,
        abs_of_nonneg (Real.arsinh_nonneg_iff.mpr zero_le_one)]
    rw [Real.arsinh, show (1 : ℝ) + 1 ^ 2 = 2 by norm_num]
    have hs2 : Real.sqrt 2 ≤ 2 := by
      nlinarith [Real.sq_sqrt (show (0 : ℝ) ≤ 2 by norm_num),
        Real.sqrt_nonneg 2]
    have hlog := Real.log_le_sub_one_of_pos
      (show (0 : ℝ) < 1 + Real.sqrt 2 by positivity)
    have h3 := Real.pi_gt_three
    linarith
  exact ⟨by norm_num, by norm_num, by norm_num,
    (lat_lon_to_tile_monotone 1).1 0 0 90 (by norm_num) (by norm_num)
      (by norm_num),
    (lat_lon_to_tile_monotone 1).2 0 45 0 (by norm_num) (by norm_num)
      (by norm_num) habs45 habs0⟩

/-- Models Python `range(a, b)` over the integers: the list
`[a, a+1, ..., b-1]`, empty when `b ≤ a`. -/
def intRange (a b : ℤ) : List ℤ :=
  (List.range (b - a).toNat).map (fun i : ℕ => a + (i : ℤ))

/-- Models `get_tiles_for_bbox` of `contour_gen.py` (textually identical in
`test_contour_standalone.py`): tile indices for the north-west and
south-east corners, a swap on each axis so that min ≤ max, then the full
rectangular cross-product of `(zoom, x, y)` triples, x outer, y inner. -/
noncomputable def get_tiles_for_bbox (bbox : ℝ × ℝ × ℝ × ℝ) (zoom : ℕ) :
    List (ℕ × ℤ × ℤ) :=
  let west := bbox.1
  let south := bbox.2.1
  let east := bbox.2.2.1
  let north := bbox.2.2.2
  let min_x0 := (lat_lon_to_tile north west zoom).1
  let max_x0 := (lat_lon_to_tile south east zoom).1
  let min_y0 := (lat_lon_to_tile north west zoom).2
  let max_y0 := (lat_lon_to_tile south east zoom).2
  let min_x := if min_x0 > max_x0 then max_x0 else min_x0
  let max_x := if min_x0 > max_x0 then min_x0 else max_x0
  let min_y := if min_y0 > max_y0 then max_y0 else min_y0
  let max_y := if min_y0 > max_y0 then min_y0 else max_y0
  ((intRange min_x (max_x + 1)).map (fun x =>
    (intRange min_y (max_y + 1)).map (fun y => (zoom, x, y)))).flatten

lemma mem_intRange {a b x : ℤ} : x ∈ intRange a b ↔ a ≤ x ∧ x < b := by
  simp only [intRange, List.mem_map, List.mem_range]
  constructor
  · rintro ⟨i, hi, rfl⟩
    omega
  · rintro ⟨h1, h2⟩
    exact ⟨(x - a).toNat, by omega, by omega⟩

lemma mem_get_tiles_for_bbox (west south east north : ℝ) (zoom : ℕ)
    (z : ℕ) (x y : ℤ) :
    (z, x, y) ∈ get_tiles_for_bbox (west, south, east, north) zoom ↔
      z = zoom ∧
      min (lat_lon_to_tile north west zoom).1
          (lat_lon_to_tile south east zoom).1 ≤ x ∧
      x ≤ max (lat_lon_to_tile north west zoom).1
              (lat_lon_to_tile south east zoom).1 ∧
      min (lat_lon_to_tile north west zoom).2
          (lat_lon_to_tile south east zoom).2 ≤ y ∧
      y ≤ max (lat_lon_to_tile north west zoom).2
              (lat_lon_to_tile south east zoom).2 := by
  unfold get_tiles_for_bbox
  dsimp only
  simp only [List.mem_flatten, List.mem_map, mem_intRange, Prod.mk.injEq,
    exists_exists_and_eq_and]
  constructor
  · rintro ⟨x0, ⟨hx1, hx2⟩, y0, ⟨hy1, hy2⟩, hz, hx, hy⟩
    subst hz; subst hx; subst hy
    split_ifs at hx1 hx2 hy1 hy2 <;>
      refine ⟨rfl, ?_, ?_, ?_, ?_⟩ <;> omega
  · rintro ⟨rfl, h1, h2, h3, h4⟩
    refine ⟨x, ⟨?_, ?_⟩, y, ⟨?_, ?_⟩, rfl, rfl, rfl⟩ <;>
      split_ifs <;> omega

/-- C6: for every bounding box `(west, south, east, north)` and zoom, the
returned list is exactly the rectangular cross-product of the componentwise
min/max of the corner tile indices — membership holds iff the x and y
indices lie in the min/max ranges — and min ≤ max holds on both axes, so
reversed inputs (west > east or south > north) are tolerated. -/
theorem get_tiles_for_bbox_rectangle (west south east north : ℝ)
    (zoom : ℕ) :
    (∀ z x y,
      (z, x, y) ∈ get_tiles_for_bbox (west, south, east, north) zoom ↔
        z = zoom ∧
        min (lat_lon_to_tile north west zoom).1
            (lat_lon_to_tile south east zoom).1 ≤ x ∧
        x ≤ max (lat_lon_to_tile north west zoom).1
                (lat_lon_to_tile south east zoom).1 ∧
        min (lat_lon_to_tile north west zoom).2
            (lat_lon_to_tile south east zoom).2 ≤ y ∧
        y ≤ max (lat_lon_to_tile north west zoom).2
                (lat_lon_to_tile south east zoom).2) ∧
    min (lat_lon_to_tile north west zoom).1
        (lat_lon_to_tile south east zoom).1 ≤
      max (lat_lon_to_tile north west zoom).1
          (lat_lon_to_tile south east zoom).1 ∧
    min (lat_lon_to_tile north west zoom).2
        (lat_lon_to_tile south east zoom).2 ≤
      max (lat_lon_to_tile north west zoom).2
          (lat_lon_to_tile south east zoom).2 :=
  ⟨fun z x y => mem_get_tiles_for_bbox west south east north zoom z x y,
   min_le_max, min_le_max⟩

/-- C10: for every bounding box — degenerate and reversed boxes included —
the returned tile list is non-empty: after the min/max swap both index
ranges contain at least one value. -/
theorem get_tiles_for_bbox_nonempty (bbox : ℝ × ℝ × ℝ × ℝ) (zoom : ℕ) :
    get_tiles_for_bbox bbox zoom ≠ [] := by
  obtain ⟨west, south, east, north⟩ := bbox
  intro h
  have hm : (zoom,
      min (lat_lon_to_tile north west zoom).1
          (lat_lon_to_tile south east zoom).1,
      min (lat_lon_to_tile north west zoom).2
          (lat_lon_to_tile south east zoom).2) ∈
      get_tiles_for_bbox (west, south, east, north) zoom := by
    rw [mem_get_tiles_for_bbox]
    exact ⟨rfl, le_refl _, min_le_max, le_refl _, min_le_max⟩
  rw [h] at hm
  exact List.not_mem_nil _ hm

end Isohypses
